import Mathlib

/-
Verification of the highlight and selection logic of the TechViewer 3D /
3D Viewer React components (src/src/components/ModelViewer.jsx).

The repository source concatenates two variants of the viewer:
an assembly demo viewer whose highlight routine selects meshes by name
(here: namespace Demo), and a model-file viewer whose highlight routine
selects meshes by uuid (here: namespace Loader).  Both walk the scene
graph, lazily cache the original material of each mesh in
userData.originalMaterial, and assign one of three material presets
(selected, search match, ghost) or restore the cached original.

JavaScript strings are embedded as lists of characters so that all
string operations (toLowerCase, trim, includes) are structurally
recursive and computable.  Materials are records of the fields the
routine reads or writes; numeric fields are rationals.
-/

namespace ModelViewer

/-- JavaScript strings, embedded as lists of characters. -/
abbrev JsString := List Char

/-- Model of JavaScript String.prototype.toLowerCase (ASCII letters). -/
def jsToLower (s : JsString) : JsString := s.map Char.toLower

/-- Model of JavaScript String.prototype.trim: drop leading and trailing whitespace. -/
def jsTrim (s : JsString) : JsString :=
  ((s.dropWhile Char.isWhitespace).reverse.dropWhile Char.isWhitespace).reverse

/-- Helper for substring search: the pattern occurs at the head of the list. -/
def leadsWith : JsString → JsString → Bool
  | [], _ => true
  | _ :: _, [] => false
  | a :: as, b :: bs => a == b && leadsWith as bs

/-- Helper for substring search: the pattern occurs somewhere in the list. -/
def hasSubstr (pat : JsString) : JsString → Bool
  | [] => leadsWith pat []
  | c :: rest => leadsWith pat (c :: rest) || hasSubstr pat rest

/-- Model of JavaScript String.prototype.includes: `jsIncludes s sub` holds when
`sub` occurs contiguously inside `s`. -/
def jsIncludes (s sub : JsString) : Bool := hasSubstr sub s

/-- JavaScript truthiness of an optional string: undefined, null and the empty
string are falsy, every other string is truthy. -/
def optTruthy : Option JsString → Bool
  | none => false
  | some s => !(s == [])

/-- The material fields that the highlight routine reads or writes, plus
metalness as a representative untouched field.  Cloning a material copies
all fields, so a clone is simply the same record value. -/
structure Material where
  color : JsString
  emissive : JsString
  emissiveIntensity : ℚ
  transparent : Bool
  opacity : ℚ
  roughness : ℚ
  metalness : ℚ
  deriving DecidableEq, Repr

/-- Blue highlight colour for search matches (new THREE.Color of hex 3b82f6). -/
def searchColor : JsString := "#3b82f6".toList

/-- Orange highlight colour for the selected part (new THREE.Color of hex f97316). -/
def selectColor : JsString := "#f97316".toList

/-- Grey colour used by the ghost preset. -/
def ghostColor : JsString := "#cccccc".toList

/-- The per-node data of a scene-graph object: the THREE.Object3D fields the
component reads or writes (isMesh, name, uuid, material, the
userData.originalMaterial cache) together with representative fields the
routine never touches (transform, geometry, remaining userData entries). -/
structure MeshProps where
  isMesh : Bool
  name : JsString
  uuid : JsString
  transform : List ℚ
  geometry : JsString
  material : Material
  originalMaterial : Option Material
  userDataExtra : List (JsString × JsString)
  deriving DecidableEq, Repr

/-- A scene-graph node: its own properties plus a list of children. -/
inductive Object3D : Type where
  | mk (props : MeshProps) (children : List Object3D)

/-- Properties of the root node. -/
def Object3D.props : Object3D → MeshProps
  | .mk p _ => p

/-- Children of the root node. -/
def Object3D.children : Object3D → List Object3D
  | .mk _ cs => cs

mutual

/-- Model of THREE.Object3D.traverse with a callback that rewrites the
per-node properties: the callback is applied to every node of the tree. -/
def traverseTree (f : MeshProps → MeshProps) : Object3D → Object3D
  | .mk p cs => .mk (f p) (traverseChildren f cs)

/-- Pointwise `traverseTree` over a list of children. -/
def traverseChildren (f : MeshProps → MeshProps) : List Object3D → List Object3D
  | [] => []
  | c :: cs => traverseTree f c :: traverseChildren f cs

end

mutual

/-- All node properties of a tree, in preorder. -/
def nodes : Object3D → List MeshProps
  | .mk p cs => p :: nodesOf cs

/-- All node properties of a list of trees, in preorder. -/
def nodesOf : List Object3D → List MeshProps
  | [] => []
  | c :: cs => nodes c ++ nodesOf cs

end

/-- The cached original material when present, else the current material:
the value stored into userData.originalMaterial on first visit. -/
def origOf (child : MeshProps) : Material :=
  match child.originalMaterial with
  | some m => m
  | none => child.material

/-- The search-match preset (priority 2, blue): applied to a clone of the
cached original material. -/
def searchPreset (newMat : Material) : Material :=
  { newMat with emissive := searchColor, emissiveIntensity := 0.5,
                color := searchColor, transparent := false, opacity := 1 }

/-- The ghost preset (priority 3, transparent grey). -/
def ghostPreset (newMat : Material) : Material :=
  { newMat with transparent := true, opacity := 0.1,
                color := ghostColor, roughness := 1 }

/-- Search matching shared by both variants: the normalized search text is
non-empty and occurs inside the lowercased mesh name. -/
def isSearchMatch (normalizedSearch partName : JsString) : Bool :=
  !(normalizedSearch == []) && jsIncludes partName normalizedSearch

namespace Demo

/-- The selected preset of the demo viewer (priority 1, orange, intensity 0.6). -/
def selectedPreset (newMat : Material) : Material :=
  { newMat with emissive := selectColor, emissiveIntensity := 0.6,
                color := selectColor, transparent := false, opacity := 1 }

/-- Selection test of the demo viewer: selectedPartName is truthy and the
lowercased mesh name equals the lowercased selected name. -/
def isSelected (selectedPartName : Option JsString) (partName : JsString) : Bool :=
  match selectedPartName with
  | none => false
  | some s => !(s == []) && partName == jsToLower s

/-- The traverse callback of the demo updateHighlight: initialize the
originalMaterial cache if absent, then either restore the cached original
(when neither search nor selection is active) or assign a preset applied
to a clone of the cached original. -/
def processChild (normalizedSearch : JsString) (selectedPartName : Option JsString)
    (child : MeshProps) : MeshProps :=
  if child.isMesh then
    let originalMaterial := origOf child
    let partName := jsToLower child.name
    if normalizedSearch == [] && !optTruthy selectedPartName then
      { child with originalMaterial := some originalMaterial,
                   material := originalMaterial }
    else
      let newMat :=
        if isSelected selectedPartName partName then selectedPreset originalMaterial
        else if isSearchMatch normalizedSearch partName then searchPreset originalMaterial
        else ghostPreset originalMaterial
      { child with originalMaterial := some originalMaterial, material := newMat }
  else child

/-- The demo updateHighlight routine: a missing scene is a no-op; otherwise
the search term is lowercased and trimmed once and the callback is applied
to every node of the scene. -/
def updateHighlight (scene : Option Object3D) (searchTerm : JsString)
    (selectedPartName : Option JsString) : Option Object3D :=
  match scene with
  | none => none
  | some root =>
    let normalizedSearch := jsTrim (jsToLower searchTerm)
    some (traverseTree (processChild normalizedSearch selectedPartName) root)

/-- A sequence of demo updateHighlight invocations with the given arguments. -/
def runAll (scene : Option Object3D) (calls : List (JsString × Option JsString)) :
    Option Object3D :=
  calls.foldl (fun sc a => updateHighlight sc a.1 a.2) scene

/-- The effect of a sequence of demo updateHighlight invocations on a single
node: each call normalizes its search term and applies the callback. -/
def callFold (calls : List (JsString × Option JsString)) (p : MeshProps) : MeshProps :=
  calls.foldl (fun r a => processChild (jsTrim (jsToLower a.1)) a.2 r) p

end Demo

namespace Loader

/-- The selected preset of the file-loader viewer (priority 1, orange,
intensity 0.8). -/
def selectedPreset (newMat : Material) : Material :=
  { newMat with emissive := selectColor, emissiveIntensity := 0.8,
                color := selectColor, transparent := false, opacity := 1 }

/-- Selection test of the file-loader viewer: selectedPartId is truthy and
the mesh uuid equals it exactly. -/
def isSelected (selectedPartId : Option JsString) (uuid : JsString) : Bool :=
  match selectedPartId with
  | none => false
  | some s => !(s == []) && uuid == s

/-- The traverse callback of the file-loader updateHighlight. -/
def processChild (normalizedSearch : JsString) (selectedPartId : Option JsString)
    (child : MeshProps) : MeshProps :=
  if child.isMesh then
    let originalMaterial := origOf child
    let partName := jsToLower child.name
    if normalizedSearch == [] && !optTruthy selectedPartId then
      { child with originalMaterial := some originalMaterial,
                   material := originalMaterial }
    else
      let newMat :=
        if isSelected selectedPartId child.uuid then selectedPreset originalMaterial
        else if isSearchMatch normalizedSearch partName then searchPreset originalMaterial
        else ghostPreset originalMaterial
      { child with originalMaterial := some originalMaterial, material := newMat }
  else child

/-- The file-loader updateHighlight routine. -/
def updateHighlight (scene : Option Object3D) (searchTerm : JsString)
    (selectedPartId : Option JsString) : Option Object3D :=
  match scene with
  | none => none
  | some root =>
    let normalizedSearch := jsTrim (jsToLower searchTerm)
    some (traverseTree (processChild normalizedSearch selectedPartId) root)

/-- A sequence of file-loader updateHighlight invocations. -/
def runAll (scene : Option Object3D) (calls : List (JsString × Option JsString)) :
    Option Object3D :=
  calls.foldl (fun sc a => updateHighlight sc a.1 a.2) scene

/-- The effect of a sequence of file-loader updateHighlight invocations on a
single node. -/
def callFold (calls : List (JsString × Option JsString)) (p : MeshProps) : MeshProps :=
  calls.foldl (fun r a => processChild (jsTrim (jsToLower a.1)) a.2 r) p

end Loader

/-- The ephemeral state of the viewer panel, generic in the system descriptor
type and the selected-part payload type (the two viewer variants store
different payloads, but handleSystemChange never inspects them). -/
structure ViewerState (σ α : Type) where
  activeSystem : σ
  selectedPart : Option α
  searchTerm : JsString
  autoRotate : Bool

/-- Model of handleSystemChange: set the active system, clear the selected
part, clear the search text. -/
def handleSystemChange {σ α : Type} (st : ViewerState σ α) (system : σ) :
    ViewerState σ α :=
  { st with activeSystem := system, selectedPart := none, searchTerm := [] }

/-- A numeric literal of the procedural parts table: every value is rational
except the rotation component written as Math.PI divided by two. -/
inductive JsNum : Type where
  | rat (q : ℚ)
  | halfPi
  deriving DecidableEq, Repr

/-- One entry of the procedural parts table: name, primitive kind, shape
arguments, position, optional rotation, base colour. -/
structure PartDescriptor where
  name : JsString
  geo : JsString
  args : List ℚ
  pos : List ℚ
  rot : Option (List JsNum)
  color : JsString
  deriving DecidableEq, Repr

/-- Tag of the demo engine system. -/
def engineTag : JsString := "demo-engine".toList

/-- Tag of the demo pump system. -/
def pumpTag : JsString := "demo-pump".toList

/-- Tag of the demo circuit system. -/
def circuitTag : JsString := "demo-circuit".toList

/-- The procedural content generator of ProceduralAssembly: the parts list
computed from the system-type tag. -/
def proceduralParts (type : JsString) : List PartDescriptor :=
  if type == engineTag then
    [ { name := "Engine-Housing-Outer".toList, geo := "box".toList, args := [4, 3, 4],
        pos := [0, 0, 0], rot := none, color := "#475569".toList },
      { name := "Piston-001".toList, geo := "cylinder".toList, args := [0.5, 0.5, 2, 32],
        pos := [-1, 2, -1], rot := none, color := "#cbd5e1".toList },
      { name := "Piston-002".toList, geo := "cylinder".toList, args := [0.5, 0.5, 2, 32],
        pos := [1, 2, -1], rot := none, color := "#cbd5e1".toList },
      { name := "Piston-003".toList, geo := "cylinder".toList, args := [0.5, 0.5, 2, 32],
        pos := [-1, 2, 1], rot := none, color := "#cbd5e1".toList },
      { name := "Piston-004".toList, geo := "cylinder".toList, args := [0.5, 0.5, 2, 32],
        pos := [1, 2, 1], rot := none, color := "#cbd5e1".toList },
      { name := "Gear-Drive-Main".toList, geo := "torus".toList, args := [1.2, 0.3, 16, 100],
        pos := [0, 0, 2.1], rot := none, color := "#fbbf24".toList },
      { name := "Shaft-Coupling".toList, geo := "box".toList, args := [0.5, 0.5, 5],
        pos := [2.5, 0, 0], rot := none, color := "#94a3b8".toList } ]
  else if type == pumpTag then
    [ { name := "Reservoir-Tank".toList, geo := "sphere".toList, args := [2, 32, 32],
        pos := [0, 0, 0], rot := none, color := "#3b82f6".toList },
      { name := "Valve-Inlet".toList, geo := "box".toList, args := [1, 1, 1],
        pos := [-2, 0, 0], rot := none, color := "#ef4444".toList },
      { name := "Valve-Outlet".toList, geo := "box".toList, args := [1, 1, 1],
        pos := [2, 0, 0], rot := none, color := "#22c55e".toList },
      { name := "Pipe-Connector".toList, geo := "cylinder".toList, args := [0.2, 0.2, 6, 16],
        pos := [0, 2, 0], rot := some [.rat 0, .rat 0, .halfPi], color := "#64748b".toList } ]
  else
    [ { name := "PCB-Board-Base".toList, geo := "box".toList, args := [5, 0.2, 5],
        pos := [0, 0, 0], rot := none, color := "#064e3b".toList },
      { name := "Chip-CPU".toList, geo := "box".toList, args := [1, 0.5, 1],
        pos := [0, 0.5, 0], rot := none, color := "#1e293b".toList },
      { name := "Capacitor-C1".toList, geo := "cylinder".toList, args := [0.3, 0.3, 0.8, 16],
        pos := [-1.5, 0.5, -1.5], rot := none, color := "#eab308".toList },
      { name := "Capacitor-C2".toList, geo := "cylinder".toList, args := [0.3, 0.3, 0.8, 16],
        pos := [-1.0, 0.5, -1.5], rot := none, color := "#eab308".toList },
      { name := "Resistor-Array".toList, geo := "box".toList, args := [2, 0.3, 0.5],
        pos := [1, 0.4, 1.5], rot := none, color := "#000000".toList } ]

/-- Relation between the initial value of a node and its value after any
number of highlight invocations: the identity fields are unchanged and the
originalMaterial cache is either still unset (with the material unchanged)
or holds exactly the initial material. -/
def TracksOriginal (p q : MeshProps) : Prop :=
  q.isMesh = p.isMesh ∧ q.name = p.name ∧ q.uuid = p.uuid ∧
    ((q.originalMaterial = none ∧ q.material = p.material) ∨
      q.originalMaterial = some p.material)

/-- A material with every field blank, used to erase the two mutable fields
of a node when stating that nothing else changes. -/
def blankMaterial : Material :=
  { color := [], emissive := [], emissiveIntensity := 0, transparent := false,
    opacity := 0, roughness := 0, metalness := 0 }

/-- Erase the two fields the highlight routine may write (the active material
and the originalMaterial cache), keeping every other per-node property. -/
def stripNode (p : MeshProps) : MeshProps :=
  { p with material := blankMaterial, originalMaterial := none }

/-- Erase the mutable fields of every node of a scene, keeping names, uuids,
transforms, geometries, remaining userData and the child structure. -/
def stripScene (t : Object3D) : Object3D := traverseTree stripNode t

/-- A representative original material for the witness scenes. -/
def matSteel : Material :=
  { color := "#cbd5e1".toList, emissive := "#000000".toList, emissiveIntensity := 0,
    transparent := false, opacity := 1, roughness := 0.5, metalness := 0.4 }

/-- Witness mesh named Piston-001. -/
def meshPiston : MeshProps :=
  { isMesh := true, name := "Piston-001".toList, uuid := "uuid-piston".toList,
    transform := [-1, 2, -1], geometry := "cylinder".toList, material := matSteel,
    originalMaterial := none, userDataExtra := [] }

/-- Witness mesh named Gear-Drive-Main. -/
def meshGear : MeshProps :=
  { isMesh := true, name := "Gear-Drive-Main".toList, uuid := "uuid-gear".toList,
    transform := [0, 0, 2.1], geometry := "torus".toList, material := matSteel,
    originalMaterial := none, userDataExtra := [] }

/-- Witness mesh named Shaft-Coupling. -/
def meshShaft : MeshProps :=
  { isMesh := true, name := "Shaft-Coupling".toList, uuid := "uuid-shaft".toList,
    transform := [2.5, 0, 0], geometry := "box".toList, material := matSteel,
    originalMaterial := none, userDataExtra := [] }

/-- Witness group node (not a mesh). -/
def groupRoot : MeshProps :=
  { isMesh := false, name := [], uuid := "uuid-root".toList, transform := [0, 0, 0],
    geometry := [], material := blankMaterial, originalMaterial := none,
    userDataExtra := [] }

/-- Witness scene: a group with three meshes as children. -/
def sceneA : Object3D :=
  .mk groupRoot [.mk meshPiston [], .mk meshGear [], .mk meshShaft []]

/-- Witness call history: a search highlight followed by a selection. -/
def callsA : List (JsString × Option JsString) :=
  [("gear".toList, none), ([], some ("piston-001".toList))]

/-- Witness scene after the call history and a final all-empty invocation. -/
def restoreAfter : Object3D :=
  (Demo.updateHighlight (Demo.runAll (some sceneA) callsA) [] none).getD sceneA

/-- Witness node: the piston mesh of `restoreAfter`. -/
def restoreNode : MeshProps := ((nodes restoreAfter)[1]?).getD meshPiston

/-- Witness scene for selection precedence, demo variant: the search text
also matches the selected mesh name. -/
def selAfterDemo : Object3D :=
  (Demo.updateHighlight (some sceneA) ("piston".toList) (some ("PISTON-001".toList))).getD
    sceneA

/-- Witness node: the piston mesh of `selAfterDemo`. -/
def selNodeDemo : MeshProps := ((nodes selAfterDemo)[1]?).getD meshPiston

/-- Witness scene for selection precedence, loader variant: selection by uuid. -/
def selAfterLoader : Object3D :=
  (Loader.updateHighlight (some sceneA) ("piston".toList) (some ("uuid-piston".toList))).getD
    sceneA

/-- Witness node: the piston mesh of `selAfterLoader`. -/
def selNodeLoader : MeshProps := ((nodes selAfterLoader)[1]?).getD meshPiston

/-- Witness scene for the ghost preset: searching gear ghosts the shaft. -/
def ghostAfter : Object3D :=
  (Demo.updateHighlight (some sceneA) ("gear".toList) none).getD sceneA

/-- Witness node: the shaft mesh of `ghostAfter`. -/
def ghostNode : MeshProps := ((nodes ghostAfter)[3]?).getD meshShaft

/-- Witness scene after the call history, without a final restore. -/
def cacheAfter : Object3D := (Demo.runAll (some sceneA) callsA).getD sceneA

/-- Witness node: the piston mesh of `cacheAfter`. -/
def cacheNode : MeshProps := ((nodes cacheAfter)[1]?).getD meshPiston

/-- Witness scene for the frame-effect claim. -/
def frameAfter : Object3D :=
  (Demo.updateHighlight (some sceneA) ("gear".toList) none).getD sceneA

/-- Witness node: the gear mesh of `frameAfter`. -/
def frameNode : MeshProps := ((nodes frameAfter)[2]?).getD meshGear

mutual

theorem nodes_traverseTree (f : MeshProps → MeshProps) : (t : Object3D) →
    nodes (traverseTree f t) = (nodes t).map f
  | .mk p cs => by
    simp [traverseTree, nodes, nodesOf_traverseChildren f cs]

theorem nodesOf_traverseChildren (f : MeshProps → MeshProps) : (cs : List Object3D) →
    nodesOf (traverseChildren f cs) = (nodesOf cs).map f
  | [] => rfl
  | c :: cs => by
    simp [traverseChildren, nodesOf, nodes_traverseTree f c, nodesOf_traverseChildren f cs]

end

mutual

theorem traverseTree_traverseTree (f g : MeshProps → MeshProps) : (t : Object3D) →
    traverseTree f (traverseTree g t) = traverseTree (fun p => f (g p)) t
  | .mk p cs => by
    simp [traverseTree, traverseChildren_traverseChildren f g cs]

theorem traverseChildren_traverseChildren (f g : MeshProps → MeshProps) :
    (cs : List Object3D) →
    traverseChildren f (traverseChildren g cs) = traverseChildren (fun p => f (g p)) cs
  | [] => rfl
  | c :: cs => by
    simp [traverseChildren, traverseTree_traverseTree f g c,
      traverseChildren_traverseChildren f g cs]

end

mutual

theorem traverseTree_congr (f g : MeshProps → MeshProps) (h : ∀ p, f p = g p) :
    (t : Object3D) → traverseTree f t = traverseTree g t
  | .mk p cs => by
    simp [traverseTree, h p, traverseChildren_congr f g h cs]

theorem traverseChildren_congr (f g : MeshProps → MeshProps) (h : ∀ p, f p = g p) :
    (cs : List Object3D) → traverseChildren f cs = traverseChildren g cs
  | [] => rfl
  | c :: cs => by
    simp [traverseChildren, traverseTree_congr f g h c, traverseChildren_congr f g h cs]

end

theorem nodes_foldTraverse {α : Type} (g : α → MeshProps → MeshProps) :
    ∀ (calls : List α) (t : Object3D),
    nodes (calls.foldl (fun u a => traverseTree (g a) u) t) =
      (nodes t).map (fun p => calls.foldl (fun q a => g a q) p)
  | [], t => by simp
  | a :: calls, t => by
    rw [List.foldl_cons, nodes_foldTraverse g calls, nodes_traverseTree, List.map_map]
    rfl

theorem tracksOriginal_refl (p : MeshProps) (h : p.originalMaterial = none) :
    TracksOriginal p p :=
  ⟨rfl, rfl, rfl, Or.inl ⟨h, rfl⟩⟩

namespace Demo

theorem processChild_not_mesh_demo (ns : JsString) (sel : Option JsString) (p : MeshProps)
    (h : p.isMesh = false) : processChild ns sel p = p := by
  simp [processChild, h]

theorem processChild_mesh_demo (ns : JsString) (sel : Option JsString) (p : MeshProps)
    (h : p.isMesh = true) :
    processChild ns sel p =
      { p with originalMaterial := some (origOf p),
               material :=
                 if ns == [] && !optTruthy sel then origOf p
                 else if isSelected sel (jsToLower p.name) then selectedPreset (origOf p)
                 else if isSearchMatch ns (jsToLower p.name) then searchPreset (origOf p)
                 else ghostPreset (origOf p) } := by
  simp only [processChild, h, if_true]
  split
  · simp_all
  · simp_all

theorem processChild_tracks_demo (ns : JsString) (sel : Option JsString) (p q : MeshProps)
    (h : TracksOriginal p q) : TracksOriginal p (processChild ns sel q) := by
  obtain ⟨hm, hn, hu, hrest⟩ := h
  by_cases hq : q.isMesh = true
  · rw [processChild_mesh_demo ns sel q hq]
    refine ⟨hm, hn, hu, Or.inr ?_⟩
    rcases hrest with ⟨h1, h2⟩ | h1
    · simp [origOf, h1, h2]
    · simp [origOf, h1]
  · rw [processChild_not_mesh_demo ns sel q (by simpa using hq)]
    exact ⟨hm, hn, hu, hrest⟩

theorem processChild_cache_demo (ns : JsString) (sel : Option JsString) (q : MeshProps)
    (m0 : Material) (h : q.originalMaterial = some m0) :
    (processChild ns sel q).originalMaterial = some m0 := by
  by_cases hm : q.isMesh = true
  · rw [processChild_mesh_demo ns sel q hm]
    simp [origOf, h]
  · rw [processChild_not_mesh_demo ns sel q (by simpa using hm)]
    exact h

theorem processChild_restore_demo (sel : Option JsString) (q : MeshProps)
    (hsel : optTruthy sel = false) (hm : q.isMesh = true) :
    processChild [] sel q =
      { q with originalMaterial := some (origOf q), material := origOf q } := by
  rw [processChild_mesh_demo [] sel q hm]
  simp [hsel]

theorem processChild_selected_demo (ns : JsString) (sel : JsString) (q : MeshProps)
    (hm : q.isMesh = true) (hsel : sel ≠ [])
    (hmatch : jsToLower q.name = jsToLower sel) :
    processChild ns (some sel) q =
      { q with originalMaterial := some (origOf q),
               material := selectedPreset (origOf q) } := by
  rw [processChild_mesh_demo ns (some sel) q hm]
  have h1 : optTruthy (some sel) = true := by simp [optTruthy, hsel]
  have h2 : isSelected (some sel) (jsToLower q.name) = true := by
    simp [isSelected, hsel, hmatch]
  simp [h1, h2]

theorem processChild_ghost_demo (ns : JsString) (sel : Option JsString) (q : MeshProps)
    (hm : q.isMesh = true) (hns : ns ≠ [])
    (hsel : isSelected sel (jsToLower q.name) = false)
    (hmatch : jsIncludes (jsToLower q.name) ns = false) :
    processChild ns sel q =
      { q with originalMaterial := some (origOf q),
               material := ghostPreset (origOf q) } := by
  rw [processChild_mesh_demo ns sel q hm]
  have h0 : (ns == []) = false := by simp [hns]
  have h1 : isSearchMatch ns (jsToLower q.name) = false := by
    simp [isSearchMatch, h0, hmatch]
  simp [h0, hsel, h1]

theorem processChild_idem_demo (ns : JsString) (sel : Option JsString) (p : MeshProps) :
    processChild ns sel (processChild ns sel p) = processChild ns sel p := by
  by_cases h : p.isMesh = true
  · rw [processChild_mesh_demo ns sel p h]
    rw [processChild_mesh_demo ns sel _ (by simp [h])]
    simp [origOf]
  · rw [processChild_not_mesh_demo ns sel p (by simpa using h)]
    rw [processChild_not_mesh_demo ns sel p (by simpa using h)]

theorem nodes_runAll_demo : ∀ (calls : List (JsString × Option JsString)) (t u : Object3D),
    runAll (some t) calls = some u → nodes u = (nodes t).map (callFold calls)
  | [], t, u, h => by
    rw [show runAll (some t) [] = some t from rfl, Option.some.injEq] at h
    subst h
    rw [show callFold ([] : List (JsString × Option JsString)) = fun p => p from rfl]
    simp
  | a :: calls, t, u, h => by
    have h1 : runAll (some t) (a :: calls) =
        runAll (some (traverseTree (processChild (jsTrim (jsToLower a.1)) a.2) t)) calls :=
      rfl
    rw [h1] at h
    rw [nodes_runAll_demo calls _ u h, nodes_traverseTree, List.map_map]
    rfl

theorem tracks_callFold_demo : ∀ (calls : List (JsString × Option JsString)) (p q : MeshProps),
    TracksOriginal p q → TracksOriginal p (callFold calls q)
  | [], _, _, h => h
  | a :: calls, p, q, h =>
    tracks_callFold_demo calls p _ (processChild_tracks_demo (jsTrim (jsToLower a.1)) a.2 p q h)

theorem cache_callFold_demo : ∀ (calls : List (JsString × Option JsString)) (q : MeshProps)
    (m0 : Material), q.originalMaterial = some m0 →
    (callFold calls q).originalMaterial = some m0
  | [], _, _, h => h
  | a :: calls, q, m0, h =>
    cache_callFold_demo calls _ m0 (processChild_cache_demo (jsTrim (jsToLower a.1)) a.2 q m0 h)

end Demo

namespace Loader

theorem processChild_not_mesh_loader (ns : JsString) (sel : Option JsString) (p : MeshProps)
    (h : p.isMesh = false) : processChild ns sel p = p := by
  simp [processChild, h]

theorem processChild_mesh_loader (ns : JsString) (sel : Option JsString) (p : MeshProps)
    (h : p.isMesh = true) :
    processChild ns sel p =
      { p with originalMaterial := some (origOf p),
               material :=
                 if ns == [] && !optTruthy sel then origOf p
                 else if isSelected sel p.uuid then selectedPreset (origOf p)
                 else if isSearchMatch ns (jsToLower p.name) then searchPreset (origOf p)
                 else ghostPreset (origOf p) } := by
  simp only [processChild, h, if_true]
  split
  · simp_all
  · simp_all

theorem processChild_tracks_loader (ns : JsString) (sel : Option JsString) (p q : MeshProps)
    (h : TracksOriginal p q) : TracksOriginal p (processChild ns sel q) := by
  obtain ⟨hm, hn, hu, hrest⟩ := h
  by_cases hq : q.isMesh = true
  · rw [processChild_mesh_loader ns sel q hq]
    refine ⟨hm, hn, hu, Or.inr ?_⟩
    rcases hrest with ⟨h1, h2⟩ | h1
    · simp [origOf, h1, h2]
    · simp [origOf, h1]
  · rw [processChild_not_mesh_loader ns sel q (by simpa using hq)]
    exact ⟨hm, hn, hu, hrest⟩

theorem processChild_cache_loader (ns : JsString) (sel : Option JsString) (q : MeshProps)
    (m0 : Material) (h : q.originalMaterial = some m0) :
    (processChild ns sel q).originalMaterial = some m0 := by
  by_cases hm : q.isMesh = true
  · rw [processChild_mesh_loader ns sel q hm]
    simp [origOf, h]
  · rw [processChild_not_mesh_loader ns sel q (by simpa using hm)]
    exact h

theorem processChild_restore_loader (sel : Option JsString) (q : MeshProps)
    (hsel : optTruthy sel = false) (hm : q.isMesh = true) :
    processChild [] sel q =
      { q with originalMaterial := some (origOf q), material := origOf q } := by
  rw [processChild_mesh_loader [] sel q hm]
  simp [hsel]

theorem processChild_selected_loader (ns : JsString) (sel : JsString) (q : MeshProps)
    (hm : q.isMesh = true) (hsel : sel ≠ []) (hmatch : q.uuid = sel) :
    processChild ns (some sel) q =
      { q with originalMaterial := some (origOf q),
               material := selectedPreset (origOf q) } := by
  rw [processChild_mesh_loader ns (some sel) q hm]
  have h1 : optTruthy (some sel) = true := by simp [optTruthy, hsel]
  have h2 : isSelected (some sel) q.uuid = true := by
    simp [isSelected, hsel, hmatch]
  simp [h1, h2]

theorem processChild_ghost_loader (ns : JsString) (sel : Option JsString) (q : MeshProps)
    (hm : q.isMesh = true) (hns : ns ≠ [])
    (hsel : isSelected sel q.uuid = false)
    (hmatch : jsIncludes (jsToLower q.name) ns = false) :
    processChild ns sel q =
      { q with originalMaterial := some (origOf q),
               material := ghostPreset (origOf q) } := by
  rw [processChild_mesh_loader ns sel q hm]
  have h0 : (ns == []) = false := by simp [hns]
  have h1 : isSearchMatch ns (jsToLower q.name) = false := by
    simp [isSearchMatch, h0, hmatch]
  simp [h0, hsel, h1]

theorem processChild_idem_loader (ns : JsString) (sel : Option JsString) (p : MeshProps) :
    processChild ns sel (processChild ns sel p) = processChild ns sel p := by
  by_cases h : p.isMesh = true
  · rw [processChild_mesh_loader ns sel p h]
    rw [processChild_mesh_loader ns sel _ (by simp [h])]
    simp [origOf]
  · rw [processChild_not_mesh_loader ns sel p (by simpa using h)]
    rw [processChild_not_mesh_loader ns sel p (by simpa using h)]

theorem nodes_runAll_loader : ∀ (calls : List (JsString × Option JsString)) (t u : Object3D),
    runAll (some t) calls = some u → nodes u = (nodes t).map (callFold calls)
  | [], t, u, h => by
    rw [show runAll (some t) [] = some t from rfl, Option.some.injEq] at h
    subst h
    rw [show callFold ([] : List (JsString × Option JsString)) = fun p => p from rfl]
    simp
  | a :: calls, t, u, h => by
    have h1 : runAll (some t) (a :: calls) =
        runAll (some (traverseTree (processChild (jsTrim (jsToLower a.1)) a.2) t)) calls :=
      rfl
    rw [h1] at h
    rw [nodes_runAll_loader calls _ u h, nodes_traverseTree, List.map_map]
    rfl

theorem tracks_callFold_loader : ∀ (calls : List (JsString × Option JsString)) (p q : MeshProps),
    TracksOriginal p q → TracksOriginal p (callFold calls q)
  | [], _, _, h => h
  | a :: calls, p, q, h =>
    tracks_callFold_loader calls p _ (processChild_tracks_loader (jsTrim (jsToLower a.1)) a.2 p q h)

theorem cache_callFold_loader : ∀ (calls : List (JsString × Option JsString)) (q : MeshProps)
    (m0 : Material), q.originalMaterial = some m0 →
    (callFold calls q).originalMaterial = some m0
  | [], _, _, h => h
  | a :: calls, q, m0, h =>
    cache_callFold_loader calls _ m0 (processChild_cache_loader (jsTrim (jsToLower a.1)) a.2 q m0 h)

end Loader

theorem Demo.stripNode_processChild_demo (ns : JsString) (sel : Option JsString)
    (p : MeshProps) : stripNode (Demo.processChild ns sel p) = stripNode p := by
  by_cases h : p.isMesh = true
  · rw [Demo.processChild_mesh_demo ns sel p h]
    simp [stripNode]
  · rw [Demo.processChild_not_mesh_demo ns sel p (by simpa using h)]

theorem Loader.stripNode_processChild_loader (ns : JsString) (sel : Option JsString)
    (p : MeshProps) : stripNode (Loader.processChild ns sel p) = stripNode p := by
  by_cases h : p.isMesh = true
  · rw [Loader.processChild_mesh_loader ns sel p h]
    simp [stripNode]
  · rw [Loader.processChild_not_mesh_loader ns sel p (by simpa using h)]

theorem Demo.processChild_fields_demo (ns : JsString) (sel : Option JsString) (p : MeshProps) :
    (Demo.processChild ns sel p).isMesh = p.isMesh ∧
    (Demo.processChild ns sel p).name = p.name ∧
    (Demo.processChild ns sel p).uuid = p.uuid ∧
    (Demo.processChild ns sel p).transform = p.transform ∧
    (Demo.processChild ns sel p).geometry = p.geometry ∧
    (Demo.processChild ns sel p).userDataExtra = p.userDataExtra := by
  by_cases h : p.isMesh = true
  · rw [Demo.processChild_mesh_demo ns sel p h]
    simp
  · rw [Demo.processChild_not_mesh_demo ns sel p (by simpa using h)]
    simp

theorem Loader.processChild_fields_loader (ns : JsString) (sel : Option JsString) (p : MeshProps) :
    (Loader.processChild ns sel p).isMesh = p.isMesh ∧
    (Loader.processChild ns sel p).name = p.name ∧
    (Loader.processChild ns sel p).uuid = p.uuid ∧
    (Loader.processChild ns sel p).transform = p.transform ∧
    (Loader.processChild ns sel p).geometry = p.geometry ∧
    (Loader.processChild ns sel p).userDataExtra = p.userDataExtra := by
  by_cases h : p.isMesh = true
  · rw [Loader.processChild_mesh_loader ns sel p h]
    simp
  · rw [Loader.processChild_not_mesh_loader ns sel p (by simpa using h)]
    simp

/-- Characters of a whitespace-only string are unchanged by lowercasing. -/
theorem toLower_whitespace (c : Char) (h : c.isWhitespace = true) : c.toLower = c := by
  simp only [Char.isWhitespace, Bool.or_eq_true, decide_eq_true_eq] at h
  rcases h with ((h | h) | h) | h <;> (subst h; decide)

/-- A whitespace-only search term normalizes to the empty string. -/
theorem jsTrim_jsToLower_whitespace (s : JsString) (h : s.all Char.isWhitespace = true) :
    jsTrim (jsToLower s) = [] := by
  have hl : ∀ c ∈ jsToLower s, c.isWhitespace = true := by
    intro c hc
    obtain ⟨d, hd, rfl⟩ := List.mem_map.mp hc
    have hdw := List.all_eq_true.mp h d hd
    rw [toLower_whitespace d hdw]
    exact hdw
  have h2 : (jsToLower s).dropWhile Char.isWhitespace = [] :=
    List.dropWhile_eq_nil_iff.mpr hl
  simp [jsTrim, h2]

theorem origOf_of_tracks (p q : MeshProps) (h : TracksOriginal p q) :
    origOf q = p.material := by
  rcases h.2.2.2 with ⟨h1, h2⟩ | h1
  · simp [origOf, h1, h2]
  · simp [origOf, h1]

theorem Demo.node_after_demo (t u : Object3D) (s : JsString) (sel : Option JsString)
    (h : Demo.updateHighlight (some t) s sel = some u) (i : ℕ) (q r : MeshProps)
    (hq : (nodes t)[i]? = some q) (hr : (nodes u)[i]? = some r) :
    r = Demo.processChild (jsTrim (jsToLower s)) sel q := by
  have h1 : Demo.updateHighlight (some t) s sel =
      some (traverseTree (Demo.processChild (jsTrim (jsToLower s)) sel) t) := rfl
  rw [h1, Option.some.injEq] at h
  rw [← h, nodes_traverseTree, List.getElem?_map, hq] at hr
  simpa using hr.symm

theorem Loader.node_after_loader (t u : Object3D) (s : JsString) (sel : Option JsString)
    (h : Loader.updateHighlight (some t) s sel = some u) (i : ℕ) (q r : MeshProps)
    (hq : (nodes t)[i]? = some q) (hr : (nodes u)[i]? = some r) :
    r = Loader.processChild (jsTrim (jsToLower s)) sel q := by
  have h1 : Loader.updateHighlight (some t) s sel =
      some (traverseTree (Loader.processChild (jsTrim (jsToLower s)) sel) t) := rfl
  rw [h1, Option.some.injEq] at h
  rw [← h, nodes_traverseTree, List.getElem?_map, hq] at hr
  simpa using hr.symm

theorem Demo.node_after_runAll_demo (t u : Object3D)
    (calls : List (JsString × Option JsString))
    (h : Demo.runAll (some t) calls = some u) (i : ℕ) (p q : MeshProps)
    (hp : (nodes t)[i]? = some p) (hq : (nodes u)[i]? = some q) :
    q = Demo.callFold calls p := by
  rw [Demo.nodes_runAll_demo calls t u h, List.getElem?_map, hp] at hq
  simpa using hq.symm

theorem Loader.node_after_runAll_loader (t u : Object3D)
    (calls : List (JsString × Option JsString))
    (h : Loader.runAll (some t) calls = some u) (i : ℕ) (p q : MeshProps)
    (hp : (nodes t)[i]? = some p) (hq : (nodes u)[i]? = some q) :
    q = Loader.callFold calls p := by
  rw [Loader.nodes_runAll_loader calls t u h, List.getElem?_map, hp] at hq
  simpa using hq.symm

/-- C1: for every mesh in the scene, invoking the highlight routine with both
the search text and the selection identifier empty sets the mesh active
material back to the cached original material snapshot, and after any
history of invocations starting from a fresh mesh that snapshot is
value-equivalent to the pre-highlight material of the mesh.  Stated for both
viewer variants. -/
theorem c1_empty_restores_original :
    (∀ (t u : Object3D) (sel : Option JsString) (i : ℕ) (q r : MeshProps) (m0 : Material),
        optTruthy sel = false →
        Demo.updateHighlight (some t) [] sel = some u →
        (nodes t)[i]? = some q → q.isMesh = true → q.originalMaterial = some m0 →
        (nodes u)[i]? = some r →
        r.material = m0) ∧
    (∀ (t v : Object3D) (calls : List (JsString × Option JsString))
        (sel : Option JsString) (i : ℕ) (p r : MeshProps),
        optTruthy sel = false →
        Demo.updateHighlight (Demo.runAll (some t) calls) [] sel = some v →
        (nodes t)[i]? = some p → p.isMesh = true → p.originalMaterial = none →
        (nodes v)[i]? = some r →
        r.material = p.material ∧ r.originalMaterial = some p.material) ∧
    (∀ (t u : Object3D) (sel : Option JsString) (i : ℕ) (q r : MeshProps) (m0 : Material),
        optTruthy sel = false →
        Loader.updateHighlight (some t) [] sel = some u →
        (nodes t)[i]? = some q → q.isMesh = true → q.originalMaterial = some m0 →
        (nodes u)[i]? = some r →
        r.material = m0) ∧
    (∀ (t v : Object3D) (calls : List (JsString × Option JsString))
        (sel : Option JsString) (i : ℕ) (p r : MeshProps),
        optTruthy sel = false →
        Loader.updateHighlight (Loader.runAll (some t) calls) [] sel = some v →
        (nodes t)[i]? = some p → p.isMesh = true → p.originalMaterial = none →
        (nodes v)[i]? = some r →
        r.material = p.material ∧ r.originalMaterial = some p.material) := by
  refine ⟨?_, ?_, ?_, ?_⟩
  · intro t u sel i q r m0 hsel h hq hm hcache hr
    have hr' := Demo.node_after_demo t u [] sel h i q r hq hr
    rw [show jsTrim (jsToLower []) = [] from rfl] at hr'
    rw [hr', Demo.processChild_restore_demo sel q hsel hm]
    simp [origOf, hcache]
  · intro t v calls sel i p r hsel h hp hm hfresh hr
    obtain ⟨u, hu⟩ : ∃ u, Demo.runAll (some t) calls = some u := by
      cases hru : Demo.runAll (some t) calls with
      | none => rw [hru] at h; exact Option.noConfusion h
      | some u => exact ⟨u, rfl⟩
    rw [hu] at h
    have hq : (nodes u)[i]? = some (Demo.callFold calls p) := by
      rw [Demo.nodes_runAll_demo calls t u hu, List.getElem?_map, hp]
      rfl
    have hrr := Demo.node_after_demo u v [] sel h i (Demo.callFold calls p) r hq hr
    rw [show jsTrim (jsToLower []) = [] from rfl] at hrr
    have htr : TracksOriginal p (Demo.callFold calls p) :=
      Demo.tracks_callFold_demo calls p p (tracksOriginal_refl p hfresh)
    have hmesh : (Demo.callFold calls p).isMesh = true := by rw [htr.1, hm]
    have ho : origOf (Demo.callFold calls p) = p.material := origOf_of_tracks p _ htr
    rw [hrr, Demo.processChild_restore_demo sel _ hsel hmesh]
    exact ⟨by simpa using ho, by simp [ho]⟩
  · intro t u sel i q r m0 hsel h hq hm hcache hr
    have hr' := Loader.node_after_loader t u [] sel h i q r hq hr
    rw [show jsTrim (jsToLower []) = [] from rfl] at hr'
    rw [hr', Loader.processChild_restore_loader sel q hsel hm]
    simp [origOf, hcache]
  · intro t v calls sel i p r hsel h hp hm hfresh hr
    obtain ⟨u, hu⟩ : ∃ u, Loader.runAll (some t) calls = some u := by
      cases hru : Loader.runAll (some t) calls with
      | none => rw [hru] at h; exact Option.noConfusion h
      | some u => exact ⟨u, rfl⟩
    rw [hu] at h
    have hq : (nodes u)[i]? = some (Loader.callFold calls p) := by
      rw [Loader.nodes_runAll_loader calls t u hu, List.getElem?_map, hp]
      rfl
    have hrr := Loader.node_after_loader u v [] sel h i (Loader.callFold calls p) r hq hr
    rw [show jsTrim (jsToLower []) = [] from rfl] at hrr
    have htr : TracksOriginal p (Loader.callFold calls p) :=
      Loader.tracks_callFold_loader calls p p (tracksOriginal_refl p hfresh)
    have hmesh : (Loader.callFold calls p).isMesh = true := by rw [htr.1, hm]
    have ho : origOf (Loader.callFold calls p) = p.material := origOf_of_tracks p _ htr
    rw [hrr, Loader.processChild_restore_loader sel _ hsel hmesh]
    exact ⟨by simpa using ho, by simp [ho]⟩

/-- Witness for C1: a concrete scene, a search-then-select history, then an
all-empty invocation restores the piston mesh to its original material. -/
theorem c1_empty_restores_original_witness :
    restoreNode.material = meshPiston.material ∧
    restoreNode.originalMaterial = some meshPiston.material :=
  c1_empty_restores_original.2.1 sceneA restoreAfter callsA none 1 meshPiston restoreNode
    rfl rfl rfl rfl rfl rfl

/-- C2: whenever the selection identifier is non-empty and matches a mesh
(by lowercased name in the demo viewer, by uuid in the loader viewer), the
highlight routine applies the selected preset to that mesh, for every search
text, including search texts matching the mesh name. -/
theorem c2_selection_precedence :
    (∀ (t u : Object3D) (s : JsString) (sel : JsString) (i : ℕ) (q r : MeshProps),
        Demo.updateHighlight (some t) s (some sel) = some u →
        (nodes t)[i]? = some q → q.isMesh = true →
        sel ≠ [] → jsToLower q.name = jsToLower sel →
        (nodes u)[i]? = some r →
        r.material = Demo.selectedPreset (origOf q)) ∧
    (∀ (t u : Object3D) (s : JsString) (sel : JsString) (i : ℕ) (q r : MeshProps),
        Loader.updateHighlight (some t) s (some sel) = some u →
        (nodes t)[i]? = some q → q.isMesh = true →
        sel ≠ [] → q.uuid = sel →
        (nodes u)[i]? = some r →
        r.material = Loader.selectedPreset (origOf q)) := by
  constructor
  · intro t u s sel i q r h hq hm hsel hmatch hr
    have hr' := Demo.node_after_demo t u s (some sel) h i q r hq hr
    rw [hr', Demo.processChild_selected_demo (jsTrim (jsToLower s)) sel q hm hsel hmatch]
  · intro t u s sel i q r h hq hm hsel hmatch hr
    have hr' := Loader.node_after_loader t u s (some sel) h i q r hq hr
    rw [hr', Loader.processChild_selected_loader (jsTrim (jsToLower s)) sel q hm hsel hmatch]

/-- Witness for C2: the piston mesh is selected (by name, respectively by
uuid) while the search text piston also matches its name, and it still
receives the selected preset. -/
theorem c2_selection_precedence_witness :
    selNodeDemo.material = Demo.selectedPreset (origOf meshPiston) ∧
    selNodeLoader.material = Loader.selectedPreset (origOf meshPiston) :=
  ⟨c2_selection_precedence.1 sceneA selAfterDemo ("piston".toList)
      ("PISTON-001".toList) 1 meshPiston selNodeDemo rfl rfl rfl (by decide) rfl rfl,
    c2_selection_precedence.2 sceneA selAfterLoader ("piston".toList)
      ("uuid-piston".toList) 1 meshPiston selNodeLoader rfl rfl rfl (by decide) rfl rfl⟩

/-- C3: a mesh that is not selected, when the normalized search text is
non-empty and does not occur in its lowercased name, receives the ghost
preset (transparent, opacity 0.1, grey); the substring match is
case-insensitive, so gear matches Gear-Drive-Main but not Shaft-Coupling. -/
theorem c3_ghost_for_nonmatching :
    (∀ (t u : Object3D) (s : JsString) (sel : Option JsString) (i : ℕ) (q r : MeshProps),
        Demo.updateHighlight (some t) s sel = some u →
        (nodes t)[i]? = some q → q.isMesh = true →
        Demo.isSelected sel (jsToLower q.name) = false →
        jsTrim (jsToLower s) ≠ [] →
        jsIncludes (jsToLower q.name) (jsTrim (jsToLower s)) = false →
        (nodes u)[i]? = some r →
        r.material = ghostPreset (origOf q) ∧
        r.material.transparent = true ∧
        r.material.opacity = 0.1 ∧
        r.material.color = ghostColor) ∧
    (∀ (t u : Object3D) (s : JsString) (sel : Option JsString) (i : ℕ) (q r : MeshProps),
        Loader.updateHighlight (some t) s sel = some u →
        (nodes t)[i]? = some q → q.isMesh = true →
        Loader.isSelected sel q.uuid = false →
        jsTrim (jsToLower s) ≠ [] →
        jsIncludes (jsToLower q.name) (jsTrim (jsToLower s)) = false →
        (nodes u)[i]? = some r →
        r.material = ghostPreset (origOf q) ∧
        r.material.transparent = true ∧
        r.material.opacity = 0.1 ∧
        r.material.color = ghostColor) ∧
    isSearchMatch (jsTrim (jsToLower ("gear".toList)))
      (jsToLower ("Gear-Drive-Main".toList)) = true ∧
    isSearchMatch (jsTrim (jsToLower ("gear".toList)))
      (jsToLower ("Shaft-Coupling".toList)) = false := by
  refine ⟨?_, ?_, by decide, by decide⟩
  · intro t u s sel i q r h hq hm hsel hns hmatch hr
    have hr' := Demo.node_after_demo t u s sel h i q r hq hr
    rw [hr', Demo.processChild_ghost_demo (jsTrim (jsToLower s)) sel q hm hns hsel hmatch]
    exact ⟨rfl, rfl, rfl, rfl⟩
  · intro t u s sel i q r h hq hm hsel hns hmatch hr
    have hr' := Loader.node_after_loader t u s sel h i q r hq hr
    rw [hr', Loader.processChild_ghost_loader (jsTrim (jsToLower s)) sel q hm hns hsel hmatch]
    exact ⟨rfl, rfl, rfl, rfl⟩

/-- Witness for C3: searching gear ghosts the Shaft-Coupling mesh. -/
theorem c3_ghost_for_nonmatching_witness :
    ghostNode.material = ghostPreset (origOf meshShaft) ∧
    ghostNode.material.transparent = true ∧
    ghostNode.material.opacity = 0.1 ∧
    ghostNode.material.color = ghostColor :=
  c3_ghost_for_nonmatching.1 sceneA ghostAfter ("gear".toList) none 3 meshShaft ghostNode
    rfl rfl rfl rfl (by decide) (by decide) rfl

/-- C4: the highlight routine is idempotent: invoking it twice in succession
with the same scene, search text and selection yields exactly the same
resulting scene (hence the same material field values on every mesh) as
invoking it once.  Stated for both viewer variants. -/
theorem c4_idempotent :
    (∀ (sc : Option Object3D) (s : JsString) (sel : Option JsString),
        Demo.updateHighlight (Demo.updateHighlight sc s sel) s sel =
          Demo.updateHighlight sc s sel) ∧
    (∀ (sc : Option Object3D) (s : JsString) (sel : Option JsString),
        Loader.updateHighlight (Loader.updateHighlight sc s sel) s sel =
          Loader.updateHighlight sc s sel) := by
  constructor
  · intro sc s sel
    cases sc with
    | none => rfl
    | some t =>
      have h1 : Demo.updateHighlight (Demo.updateHighlight (some t) s sel) s sel =
          some (traverseTree (Demo.processChild (jsTrim (jsToLower s)) sel)
            (traverseTree (Demo.processChild (jsTrim (jsToLower s)) sel) t)) := rfl
      rw [h1, traverseTree_traverseTree,
        traverseTree_congr _ _ (Demo.processChild_idem_demo (jsTrim (jsToLower s)) sel) t]
      rfl
  · intro sc s sel
    cases sc with
    | none => rfl
    | some t =>
      have h1 : Loader.updateHighlight (Loader.updateHighlight (some t) s sel) s sel =
          some (traverseTree (Loader.processChild (jsTrim (jsToLower s)) sel)
            (traverseTree (Loader.processChild (jsTrim (jsToLower s)) sel) t)) := rfl
      rw [h1, traverseTree_traverseTree,
        traverseTree_congr _ _ (Loader.processChild_idem_loader (jsTrim (jsToLower s)) sel) t]
      rfl

/-- C5: the originalMaterial cache of a mesh is captured exactly once, on the
first invocation that visits the mesh, and no later invocation overwrites
it; across any non-empty invocation history starting from a fresh mesh the
cache holds exactly the initial material. -/
theorem c5_cache_captured_once :
    (∀ (ns : JsString) (sel : Option JsString) (p : MeshProps),
        p.isMesh = true → p.originalMaterial = none →
        (Demo.processChild ns sel p).originalMaterial = some p.material) ∧
    (∀ (ns : JsString) (sel : Option JsString) (p : MeshProps) (m0 : Material),
        p.originalMaterial = some m0 →
        (Demo.processChild ns sel p).originalMaterial = some m0) ∧
    (∀ (t u : Object3D) (calls : List (JsString × Option JsString)) (i : ℕ)
        (p q : MeshProps),
        calls ≠ [] →
        Demo.runAll (some t) calls = some u →
        (nodes t)[i]? = some p → p.isMesh = true → p.originalMaterial = none →
        (nodes u)[i]? = some q →
        q.originalMaterial = some p.material) := by
  refine ⟨?_, ?_, ?_⟩
  · intro ns sel p hm hfresh
    rw [Demo.processChild_mesh_demo ns sel p hm]
    simp [origOf, hfresh]
  · intro ns sel p m0 h
    exact Demo.processChild_cache_demo ns sel p m0 h
  · intro t u calls i p q hne h hp hm hfresh hq
    have hq' := Demo.node_after_runAll_demo t u calls h i p q hp hq
    cases calls with
    | nil => exact absurd rfl hne
    | cons a rest =>
      have hstep : (Demo.processChild (jsTrim (jsToLower a.1)) a.2 p).originalMaterial
          = some p.material := by
        rw [Demo.processChild_mesh_demo _ _ p hm]
        simp [origOf, hfresh]
      have h2 : Demo.callFold (a :: rest) p =
          Demo.callFold rest (Demo.processChild (jsTrim (jsToLower a.1)) a.2 p) := rfl
      rw [hq', h2]
      exact Demo.cache_callFold_demo rest _ _ hstep

/-- Witness for C5: after a search call followed by a selection call the
piston mesh still caches its initial material. -/
theorem c5_cache_captured_once_witness :
    cacheNode.originalMaterial = some meshPiston.material :=
  c5_cache_captured_once.2.2 sceneA cacheAfter callsA 1 meshPiston cacheNode
    (by decide) rfl rfl rfl rfl rfl

/-- C6: invoking the highlight routine with a missing root node is a no-op
for every search text and selection identifier, in both viewer variants. -/
theorem c6_null_scene_noop :
    (∀ (s : JsString) (sel : Option JsString), Demo.updateHighlight none s sel = none) ∧
    (∀ (s : JsString) (sel : Option JsString), Loader.updateHighlight none s sel = none) :=
  ⟨fun _ _ => rfl, fun _ _ => rfl⟩

/-- C7: changing the active system sets the selected part to empty and the
search text to the empty string, while leaving the auto-rotate flag
unchanged, for every prior viewer state. -/
theorem c7_system_change_resets {σ α : Type} (st : ViewerState σ α) (system : σ) :
    (handleSystemChange st system).activeSystem = system ∧
    (handleSystemChange st system).selectedPart = none ∧
    (handleSystemChange st system).searchTerm = [] ∧
    (handleSystemChange st system).autoRotate = st.autoRotate :=
  ⟨rfl, rfl, rfl, rfl⟩

/-- C8: the procedural content generator is a deterministic function of the
system-type tag; the three recognized tags yield the three fixed ordered
part lists, and every other tag yields the circuit configuration. -/
theorem c8_procedural_generator :
    (∀ type : JsString, type ≠ engineTag → type ≠ pumpTag →
        proceduralParts type = proceduralParts circuitTag) ∧
    (proceduralParts engineTag).map (fun p => p.name) =
      [("Engine-Housing-Outer".toList), ("Piston-001".toList), ("Piston-002".toList),
        ("Piston-003".toList), ("Piston-004".toList), ("Gear-Drive-Main".toList),
        ("Shaft-Coupling".toList)] ∧
    (proceduralParts pumpTag).map (fun p => p.name) =
      [("Reservoir-Tank".toList), ("Valve-Inlet".toList), ("Valve-Outlet".toList),
        ("Pipe-Connector".toList)] ∧
    (proceduralParts circuitTag).map (fun p => p.name) =
      [("PCB-Board-Base".toList), ("Chip-CPU".toList), ("Capacitor-C1".toList),
        ("Capacitor-C2".toList), ("Resistor-Array".toList)] := by
  refine ⟨?_, rfl, rfl, rfl⟩
  intro type h1 h2
  have e1 : (type == engineTag) = false := by simpa using h1
  have e2 : (type == pumpTag) = false := by simpa using h2
  have e3 : (circuitTag == engineTag) = false := by decide
  have e4 : (circuitTag == pumpTag) = false := by decide
  simp [proceduralParts, e1, e2, e3, e4]

/-- Witness for C8: an unrecognized tag falls back to the circuit parts. -/
theorem c8_procedural_generator_witness :
    ("demo-unknown".toList ≠ engineTag) ∧ ("demo-unknown".toList ≠ pumpTag) ∧
    proceduralParts ("demo-unknown".toList) = proceduralParts circuitTag :=
  ⟨by decide, by decide,
    c8_procedural_generator.1 ("demo-unknown".toList) (by decide) (by decide)⟩

/-- C9: the highlight routine modifies only the active material of each mesh
and, on first visit, the originalMaterial cache; every other per-node
property and the child structure are unchanged, non-mesh nodes are not
modified at all, and an existing cache entry is not overwritten. -/
theorem c9_only_material_and_cache_change :
    (∀ (s : JsString) (sel : Option JsString) (t u : Object3D),
        Demo.updateHighlight (some t) s sel = some u →
        stripScene u = stripScene t ∧
        (∀ (i : ℕ) (p : MeshProps),
            (nodes t)[i]? = some p → p.isMesh = false → (nodes u)[i]? = some p) ∧
        (∀ (i : ℕ) (p q : MeshProps),
            (nodes t)[i]? = some p → (nodes u)[i]? = some q →
            q.name = p.name ∧ q.uuid = p.uuid ∧ q.transform = p.transform ∧
            q.geometry = p.geometry ∧ q.userDataExtra = p.userDataExtra ∧
            q.isMesh = p.isMesh ∧
            (∀ m0 : Material, p.originalMaterial = some m0 →
                q.originalMaterial = some m0))) ∧
    (∀ (s : JsString) (sel : Option JsString) (t u : Object3D),
        Loader.updateHighlight (some t) s sel = some u →
        stripScene u = stripScene t ∧
        (∀ (i : ℕ) (p : MeshProps),
            (nodes t)[i]? = some p → p.isMesh = false → (nodes u)[i]? = some p) ∧
        (∀ (i : ℕ) (p q : MeshProps),
            (nodes t)[i]? = some p → (nodes u)[i]? = some q →
            q.name = p.name ∧ q.uuid = p.uuid ∧ q.transform = p.transform ∧
            q.geometry = p.geometry ∧ q.userDataExtra = p.userDataExtra ∧
            q.isMesh = p.isMesh ∧
            (∀ m0 : Material, p.originalMaterial = some m0 →
                q.originalMaterial = some m0))) := by
  constructor
  · intro s sel t u h
    have h1 : Demo.updateHighlight (some t) s sel =
        some (traverseTree (Demo.processChild (jsTrim (jsToLower s)) sel) t) := rfl
    rw [h1, Option.some.injEq] at h
    subst h
    refine ⟨?_, ?_, ?_⟩
    · show traverseTree stripNode (traverseTree _ t) = traverseTree stripNode t
      rw [traverseTree_traverseTree]
      exact traverseTree_congr _ _
        (fun p => Demo.stripNode_processChild_demo (jsTrim (jsToLower s)) sel p) t
    · intro i p hp hpm
      rw [nodes_traverseTree, List.getElem?_map, hp]
      simp [Demo.processChild_not_mesh_demo (jsTrim (jsToLower s)) sel p hpm]
    · intro i p q hp hq
      rw [nodes_traverseTree, List.getElem?_map, hp] at hq
      obtain rfl : q = Demo.processChild (jsTrim (jsToLower s)) sel p := by
        simpa using hq.symm
      obtain ⟨f1, f2, f3, f4, f5, f6⟩ :=
        Demo.processChild_fields_demo (jsTrim (jsToLower s)) sel p
      exact ⟨f2, f3, f4, f5, f6, f1,
        fun m0 hm0 => Demo.processChild_cache_demo (jsTrim (jsToLower s)) sel p m0 hm0⟩
  · intro s sel t u h
    have h1 : Loader.updateHighlight (some t) s sel =
        some (traverseTree (Loader.processChild (jsTrim (jsToLower s)) sel) t) := rfl
    rw [h1, Option.some.injEq] at h
    subst h
    refine ⟨?_, ?_, ?_⟩
    · show traverseTree stripNode (traverseTree _ t) = traverseTree stripNode t
      rw [traverseTree_traverseTree]
      exact traverseTree_congr _ _
        (fun p => Loader.stripNode_processChild_loader (jsTrim (jsToLower s)) sel p) t
    · intro i p hp hpm
      rw [nodes_traverseTree, List.getElem?_map, hp]
      simp [Loader.processChild_not_mesh_loader (jsTrim (jsToLower s)) sel p hpm]
    · intro i p q hp hq
      rw [nodes_traverseTree, List.getElem?_map, hp] at hq
      obtain rfl : q = Loader.processChild (jsTrim (jsToLower s)) sel p := by
        simpa using hq.symm
      obtain ⟨f1, f2, f3, f4, f5, f6⟩ :=
        Loader.processChild_fields_loader (jsTrim (jsToLower s)) sel p
      exact ⟨f2, f3, f4, f5, f6, f1,
        fun m0 hm0 => Loader.processChild_cache_loader (jsTrim (jsToLower s)) sel p m0 hm0⟩

/-- Witness for C9: after a search, the stripped scene is unchanged, the
group node is untouched and the gear mesh keeps its identity fields. -/
theorem c9_only_material_and_cache_change_witness :
    stripScene frameAfter = stripScene sceneA ∧
    (nodes frameAfter)[0]? = some groupRoot ∧
    frameNode.name = meshGear.name ∧
    frameNode.isMesh = meshGear.isMesh := by
  have h := c9_only_material_and_cache_change.1 ("gear".toList) none sceneA frameAfter rfl
  exact ⟨h.1, h.2.1 0 groupRoot rfl rfl, (h.2.2 2 meshGear frameNode rfl rfl).1,
    (h.2.2 2 meshGear frameNode rfl rfl).2.2.2.2.2.1⟩

/-- C10: a search text consisting only of whitespace behaves exactly like the
empty search text, for every scene and selection identifier: normalization
happens once at entry and yields the empty string for whitespace-only input. -/
theorem c10_whitespace_equals_empty :
    ∀ (sc : Option Object3D) (sel : Option JsString) (s : JsString),
      s.all Char.isWhitespace = true →
      Demo.updateHighlight sc s sel = Demo.updateHighlight sc [] sel := by
  intro sc sel s h
  cases sc with
  | none => rfl
  | some t =>
    have h1 : jsTrim (jsToLower s) = [] := jsTrim_jsToLower_whitespace s h
    show some (traverseTree (Demo.processChild (jsTrim (jsToLower s)) sel) t) =
      some (traverseTree (Demo.processChild (jsTrim (jsToLower [])) sel) t)
    rw [h1]
    rfl

/-- Witness for C10: two spaces behave like the empty search text on the
witness scene with an active selection. -/
theorem c10_whitespace_equals_empty_witness :
    (("  ".toList).all Char.isWhitespace = true) ∧
    Demo.updateHighlight (some sceneA) ("  ".toList) (some ("x".toList)) =
      Demo.updateHighlight (some sceneA) [] (some ("x".toList)) :=
  ⟨by decide,
    c10_whitespace_equals_empty (some sceneA) (some ("x".toList)) ("  ".toList) (by decide)⟩

end ModelViewer
